import Mathlib

/-!
Verification of the order-processing pipeline of the api-com-solid repository:
a shallow embedding of the Order aggregate (src/domain/entities/Order.ts), the
validation chain (src/domain/services/validation/OrderValidationChain.ts), the
payment strategies (src/domain/services/payment/PaymentStrategy.ts) and the
CreateOrderUseCase orchestration, with theorems about the spec of §4.

Conventions of the embedding:
- a TypeScript method that can throw is modelled as a function returning the
  thrown message (if any) together with the post state, since a method may
  mutate fields before throwing;
- JavaScript numbers carrying money, quantities and stock are Int (every
  monetary constant of the source is integral; probability draws stay Rat);
- ambient sources (Date.now hour, Math.random draws, generated ids) are
  explicit parameters.
-/

namespace Shop

inductive OrderStatus
  | PENDING
  | CONFIRMED
  | PROCESSING
  | SHIPPED
  | DELIVERED
  | CANCELLED
deriving DecidableEq, Repr

inductive PaymentMethod
  | CREDIT_CARD
  | PIX
  | BOLETO
deriving DecidableEq, Repr

inductive PaymentStatus
  | PENDING
  | COMPLETED
  | FAILED
  | CANCELLED
deriving DecidableEq, Repr

inductive ProductStatus
  | ACTIVE
  | INACTIVE
  | OUT_OF_STOCK
deriving DecidableEq, Repr

inductive ProductType
  | PHYSICAL
  | DIGITAL
  | SERVICE
deriving DecidableEq, Repr

structure OrderItem where
  id : String
  productId : String
  quantity : Int
  price : Int
deriving DecidableEq, Repr

structure Order where
  id : String
  userId : String
  items : List OrderItem
  status : OrderStatus
  paymentMethod : PaymentMethod
  paymentStatus : PaymentStatus
deriving DecidableEq, Repr

/-- Derived total of an order: reduce((sum, item) => sum + item.price * item.quantity, 0). -/
def Order.total (o : Order) : Int :=
  o.items.foldl (fun sum item => sum + item.price * item.quantity) 0

def Order.canBeCancelled (o : Order) : Prop :=
  o.status = OrderStatus.PENDING ∨ o.status = OrderStatus.CONFIRMED

instance (o : Order) : Decidable o.canBeCancelled := by
  unfold Order.canBeCancelled; infer_instance

def Order.canBeShipped (o : Order) : Prop :=
  o.status = OrderStatus.PROCESSING ∧ o.paymentStatus = PaymentStatus.COMPLETED

instance (o : Order) : Decidable o.canBeShipped := by
  unfold Order.canBeShipped; infer_instance

def Order.canBeDelivered (o : Order) : Prop :=
  o.status = OrderStatus.SHIPPED

instance (o : Order) : Decidable o.canBeDelivered := by
  unfold Order.canBeDelivered; infer_instance

/-- Outcome of calling a (possibly throwing) entity method: the thrown message,
if any, and the state of the entity after the call. The post state matters even
on a throw: a method may have mutated fields before raising. -/
structure MethodCall where
  error : Option String
  post : Order
deriving DecidableEq, Repr

def Order.confirm (o : Order) : MethodCall :=
  if o.status ≠ OrderStatus.PENDING then
    ⟨some "Only pending orders can be confirmed", o⟩
  else
    ⟨none, { o with status := OrderStatus.CONFIRMED }⟩

def Order.startProcessing (o : Order) : MethodCall :=
  if o.status ≠ OrderStatus.CONFIRMED then
    ⟨some "Only confirmed orders can start processing", o⟩
  else
    ⟨none, { o with status := OrderStatus.PROCESSING }⟩

def Order.ship (o : Order) : MethodCall :=
  if ¬ o.canBeShipped then
    ⟨some "Order cannot be shipped. Check status and payment.", o⟩
  else
    ⟨none, { o with status := OrderStatus.SHIPPED }⟩

def Order.deliver (o : Order) : MethodCall :=
  if ¬ o.canBeDelivered then
    ⟨some "Only shipped orders can be delivered", o⟩
  else
    ⟨none, { o with status := OrderStatus.DELIVERED }⟩

def Order.cancel (o : Order) : MethodCall :=
  if ¬ o.canBeCancelled then
    ⟨some "Order cannot be cancelled at this stage", o⟩
  else
    ⟨none, { o with status := OrderStatus.CANCELLED, paymentStatus := PaymentStatus.CANCELLED }⟩

def Order.completePayment (o : Order) : MethodCall :=
  if o.paymentStatus ≠ PaymentStatus.PENDING then
    ⟨some "Payment is not pending", o⟩
  else
    ⟨none, { o with paymentStatus := PaymentStatus.COMPLETED }⟩

def Order.failPayment (o : Order) : MethodCall :=
  if o.paymentStatus ≠ PaymentStatus.PENDING then
    ⟨some "Payment is not pending", o⟩
  else
    ⟨none, { o with paymentStatus := PaymentStatus.FAILED }⟩

/-- Replace the first element satisfying the test, leaving the rest alone:
the effect of mutating the element that Array.prototype.find returned. -/
def updateFirst (p : α → Bool) (f : α → α) : List α → List α
  | [] => []
  | x :: xs => if p x then f x :: xs else x :: updateFirst p f xs

def Order.addItem (o : Order) (item : OrderItem) : MethodCall :=
  if o.status ≠ OrderStatus.PENDING then
    ⟨some "Cannot modify confirmed orders", o⟩
  else if o.items.any (fun i => i.productId == item.productId) then
    let items2 := updateFirst (fun i => i.productId == item.productId)
      (fun i => { i with quantity := i.quantity + item.quantity }) o.items
    ⟨none, { o with items := items2 }⟩
  else
    ⟨none, { o with items := o.items ++ [item] }⟩

/-- removeItem as written in the source: the splice happens before the
at-least-one-item check, so the check throwing does not restore the item. -/
def Order.removeItem (o : Order) (productId : String) : MethodCall :=
  if o.status ≠ OrderStatus.PENDING then
    ⟨some "Cannot modify confirmed orders", o⟩
  else
    match o.items.findIdx? (fun i => i.productId == productId) with
    | none => ⟨some "Item not found in order", o⟩
    | some idx =>
      if (o.items.eraseIdx idx).length = 0 then
        ⟨some "Order must have at least one item", { o with items := o.items.eraseIdx idx }⟩
      else
        ⟨none, { o with items := o.items.eraseIdx idx }⟩

def Order.updateItemQuantity (o : Order) (productId : String) (quantity : Int) : MethodCall :=
  if o.status ≠ OrderStatus.PENDING then
    ⟨some "Cannot modify confirmed orders", o⟩
  else if quantity ≤ 0 then
    ⟨some "Quantity must be greater than 0", o⟩
  else if o.items.any (fun i => i.productId == productId) then
    let items2 := updateFirst (fun i => i.productId == productId)
      (fun i => { i with quantity := quantity }) o.items
    ⟨none, { o with items := items2 }⟩
  else
    ⟨some "Item not found in order", o⟩

/-- The five order-status operations of the aggregate. -/
inductive StatusOp
  | confirm
  | startProcessing
  | ship
  | deliver
  | cancel
deriving DecidableEq, Repr

def applyStatusOp : StatusOp → Order → MethodCall
  | StatusOp.confirm, o => o.confirm
  | StatusOp.startProcessing, o => o.startProcessing
  | StatusOp.ship, o => o.ship
  | StatusOp.deliver, o => o.deliver
  | StatusOp.cancel, o => o.cancel

/-- The legal-transition table of §4.1 of the spec, written from the wording of
the spec so the code can be compared against it: the target status when the
guard of the operation holds in the given state, none otherwise. -/
def specTransitionTable (op : StatusOp) (s : OrderStatus) (p : PaymentStatus) : Option OrderStatus :=
  match op, s with
  | StatusOp.confirm, OrderStatus.PENDING => some OrderStatus.CONFIRMED
  | StatusOp.startProcessing, OrderStatus.CONFIRMED => some OrderStatus.PROCESSING
  | StatusOp.ship, OrderStatus.PROCESSING =>
      if p = PaymentStatus.COMPLETED then some OrderStatus.SHIPPED else none
  | StatusOp.deliver, OrderStatus.SHIPPED => some OrderStatus.DELIVERED
  | StatusOp.cancel, OrderStatus.PENDING => some OrderStatus.CANCELLED
  | StatusOp.cancel, OrderStatus.CONFIRMED => some OrderStatus.CANCELLED
  | _, _ => none

/-- C1: every order-status operation succeeds exactly when the table of §4.1
allows it, moves the status exactly to the target of the table, on a guard
failure signals an error leaving the whole order (status and paymentStatus
included) unchanged, and no operation leaves the terminal states DELIVERED or
CANCELLED. -/
theorem order_status_transitions_follow_table (op : StatusOp) (o : Order) :
    ((applyStatusOp op o).error = none ↔
      (specTransitionTable op o.status o.paymentStatus).isSome = true)
    ∧ ((applyStatusOp op o).error = none →
      specTransitionTable op o.status o.paymentStatus = some (applyStatusOp op o).post.status)
    ∧ ((applyStatusOp op o).error ≠ none → (applyStatusOp op o).post = o)
    ∧ (o.status = OrderStatus.DELIVERED ∨ o.status = OrderStatus.CANCELLED →
      (applyStatusOp op o).error ≠ none) := by
  obtain ⟨oid, uid, items, s, pm, ps⟩ := o
  cases op <;> cases s <;> cases ps <;>
    simp [applyStatusOp, Order.confirm, Order.startProcessing, Order.ship, Order.deliver,
      Order.cancel, Order.canBeShipped, Order.canBeCancelled, Order.canBeDelivered,
      specTransitionTable]

/-- A pending order holding exactly one line. -/
def singleItemOrder : Order :=
  { id := "o1", userId := "u1",
    items := [{ id := "i1", productId := "p1", quantity := 1, price := 50 }],
    status := OrderStatus.PENDING,
    paymentMethod := PaymentMethod.PIX,
    paymentStatus := PaymentStatus.PENDING }

/-- C2: removing the only line of a pending order signals the
at-least-one-item error, yet the order is left with NO lines: the splice
precedes the emptiness check, so the failed removal does not leave the items
unchanged, contradicting the invariant the constructor of the entity enforces. -/
theorem removeItem_last_item_removes_then_throws :
    (singleItemOrder.removeItem "p1").error = some "Order must have at least one item"
    ∧ (singleItemOrder.removeItem "p1").post.items = [] := by
  constructor <;> rfl

/-- C3 counterexample: paymentStatus CAN move from FAILED to CANCELLED, against
the claim: failPayment succeeds on a fresh pending order, and cancelling that
order then succeeds and forces paymentStatus from FAILED to CANCELLED. -/
theorem paymentStatus_cancelled_from_failed_cex :
    (singleItemOrder.failPayment).error = none
    ∧ (singleItemOrder.failPayment).post.paymentStatus = PaymentStatus.FAILED
    ∧ ((singleItemOrder.failPayment).post.cancel).error = none
    ∧ ((singleItemOrder.failPayment).post.cancel).post.paymentStatus = PaymentStatus.CANCELLED := by
  refine ⟨rfl, rfl, ?_, rfl⟩
  rfl

/-- Every mutating operation of the Order aggregate. -/
inductive OrderOp
  | confirm
  | startProcessing
  | ship
  | deliver
  | cancel
  | completePayment
  | failPayment
  | addItem (item : OrderItem)
  | removeItem (productId : String)
  | updateItemQuantity (productId : String) (quantity : Int)

def applyOrderOp : OrderOp → Order → MethodCall
  | OrderOp.confirm, o => o.confirm
  | OrderOp.startProcessing, o => o.startProcessing
  | OrderOp.ship, o => o.ship
  | OrderOp.deliver, o => o.deliver
  | OrderOp.cancel, o => o.cancel
  | OrderOp.completePayment, o => o.completePayment
  | OrderOp.failPayment, o => o.failPayment
  | OrderOp.addItem item, o => o.addItem item
  | OrderOp.removeItem productId, o => o.removeItem productId
  | OrderOp.updateItemQuantity productId quantity, o => o.updateItemQuantity productId quantity

theorem confirm_keeps_paymentStatus (o : Order) :
    (o.confirm).post.paymentStatus = o.paymentStatus := by
  unfold Order.confirm
  split <;> rfl

theorem startProcessing_keeps_paymentStatus (o : Order) :
    (o.startProcessing).post.paymentStatus = o.paymentStatus := by
  unfold Order.startProcessing
  split <;> rfl

theorem ship_keeps_paymentStatus (o : Order) :
    (o.ship).post.paymentStatus = o.paymentStatus := by
  unfold Order.ship
  split <;> rfl

theorem deliver_keeps_paymentStatus (o : Order) :
    (o.deliver).post.paymentStatus = o.paymentStatus := by
  unfold Order.deliver
  split <;> rfl

theorem addItem_keeps_paymentStatus (o : Order) (item : OrderItem) :
    (o.addItem item).post.paymentStatus = o.paymentStatus := by
  unfold Order.addItem
  split <;> (try split) <;> rfl

theorem removeItem_keeps_paymentStatus (o : Order) (pid : String) :
    (o.removeItem pid).post.paymentStatus = o.paymentStatus := by
  unfold Order.removeItem
  split
  · rfl
  · split
    · rfl
    · split <;> rfl

theorem updateItemQuantity_keeps_paymentStatus (o : Order) (pid : String) (q : Int) :
    (o.updateItemQuantity pid q).post.paymentStatus = o.paymentStatus := by
  unfold Order.updateItemQuantity
  split <;> (try split) <;> (try split) <;> rfl

theorem completePayment_spec (o : Order) :
    ((o.completePayment).error = none ↔ o.paymentStatus = PaymentStatus.PENDING)
    ∧ ((o.completePayment).error = none →
        (o.completePayment).post.paymentStatus = PaymentStatus.COMPLETED)
    ∧ ((o.completePayment).error ≠ none → (o.completePayment).post = o) := by
  unfold Order.completePayment
  by_cases h : o.paymentStatus = PaymentStatus.PENDING <;> simp [h]

theorem failPayment_spec (o : Order) :
    ((o.failPayment).error = none ↔ o.paymentStatus = PaymentStatus.PENDING)
    ∧ ((o.failPayment).error = none →
        (o.failPayment).post.paymentStatus = PaymentStatus.FAILED)
    ∧ ((o.failPayment).error ≠ none → (o.failPayment).post = o) := by
  unfold Order.failPayment
  by_cases h : o.paymentStatus = PaymentStatus.PENDING <;> simp [h]

theorem cancel_spec (o : Order) :
    ((o.cancel).error = none ↔
      (o.status = OrderStatus.PENDING ∨ o.status = OrderStatus.CONFIRMED))
    ∧ ((o.cancel).error = none → (o.cancel).post.paymentStatus = PaymentStatus.CANCELLED)
    ∧ ((o.cancel).error ≠ none → (o.cancel).post = o) := by
  unfold Order.cancel Order.canBeCancelled
  by_cases h : o.status = OrderStatus.PENDING ∨ o.status = OrderStatus.CONFIRMED <;> simp [h]

/-- C3 as the code has it: completePayment and failPayment require paymentStatus
PENDING (signalling an error and changing nothing otherwise) and set COMPLETED
respectively FAILED; cancel is guarded only by the ORDER status and always
forces paymentStatus to CANCELLED, from PENDING, COMPLETED and FAILED alike; and
no other operation ever changes paymentStatus. -/
theorem paymentStatus_secondary_machine (op : OrderOp) (o : Order) :
    (op = OrderOp.completePayment →
      ((applyOrderOp op o).error = none ↔ o.paymentStatus = PaymentStatus.PENDING)
      ∧ ((applyOrderOp op o).error = none →
          (applyOrderOp op o).post.paymentStatus = PaymentStatus.COMPLETED)
      ∧ ((applyOrderOp op o).error ≠ none → (applyOrderOp op o).post = o))
    ∧ (op = OrderOp.failPayment →
      ((applyOrderOp op o).error = none ↔ o.paymentStatus = PaymentStatus.PENDING)
      ∧ ((applyOrderOp op o).error = none →
          (applyOrderOp op o).post.paymentStatus = PaymentStatus.FAILED)
      ∧ ((applyOrderOp op o).error ≠ none → (applyOrderOp op o).post = o))
    ∧ (op = OrderOp.cancel →
      ((applyOrderOp op o).error = none ↔
        (o.status = OrderStatus.PENDING ∨ o.status = OrderStatus.CONFIRMED))
      ∧ ((applyOrderOp op o).error = none →
          (applyOrderOp op o).post.paymentStatus = PaymentStatus.CANCELLED)
      ∧ ((applyOrderOp op o).error ≠ none → (applyOrderOp op o).post = o))
    ∧ ((op ≠ OrderOp.completePayment ∧ op ≠ OrderOp.failPayment ∧ op ≠ OrderOp.cancel) →
      (applyOrderOp op o).post.paymentStatus = o.paymentStatus) := by
  cases op with
  | confirm =>
    exact ⟨fun h => OrderOp.noConfusion h, fun h => OrderOp.noConfusion h,
      fun h => OrderOp.noConfusion h, fun _ => confirm_keeps_paymentStatus o⟩
  | startProcessing =>
    exact ⟨fun h => OrderOp.noConfusion h, fun h => OrderOp.noConfusion h,
      fun h => OrderOp.noConfusion h, fun _ => startProcessing_keeps_paymentStatus o⟩
  | ship =>
    exact ⟨fun h => OrderOp.noConfusion h, fun h => OrderOp.noConfusion h,
      fun h => OrderOp.noConfusion h, fun _ => ship_keeps_paymentStatus o⟩
  | deliver =>
    exact ⟨fun h => OrderOp.noConfusion h, fun h => OrderOp.noConfusion h,
      fun h => OrderOp.noConfusion h, fun _ => deliver_keeps_paymentStatus o⟩
  | cancel =>
    exact ⟨fun h => OrderOp.noConfusion h, fun h => OrderOp.noConfusion h,
      fun _ => cancel_spec o, fun hx => absurd rfl hx.2.2⟩
  | completePayment =>
    exact ⟨fun _ => completePayment_spec o, fun h => OrderOp.noConfusion h,
      fun h => OrderOp.noConfusion h, fun hx => absurd rfl hx.1⟩
  | failPayment =>
    exact ⟨fun h => OrderOp.noConfusion h, fun _ => failPayment_spec o,
      fun h => OrderOp.noConfusion h, fun hx => absurd rfl hx.2.1⟩
  | addItem item =>
    exact ⟨fun h => OrderOp.noConfusion h, fun h => OrderOp.noConfusion h,
      fun h => OrderOp.noConfusion h, fun _ => addItem_keeps_paymentStatus o item⟩
  | removeItem pid =>
    exact ⟨fun h => OrderOp.noConfusion h, fun h => OrderOp.noConfusion h,
      fun h => OrderOp.noConfusion h, fun _ => removeItem_keeps_paymentStatus o pid⟩
  | updateItemQuantity pid q =>
    exact ⟨fun h => OrderOp.noConfusion h, fun h => OrderOp.noConfusion h,
      fun h => OrderOp.noConfusion h, fun _ => updateItemQuantity_keeps_paymentStatus o pid q⟩

structure Product where
  id : String
  name : String
  description : String
  price : Int
  stock : Int
  categoryId : String
  status : ProductStatus
deriving DecidableEq, Repr

structure User where
  id : String
  email : String
  password : String
  name : String
deriving DecidableEq, Repr

/-- The optional customerData blob of a request; a missing field is none and
JavaScript truthiness (0, the empty string and false are falsy) is applied at
each use site. -/
structure CustomerData where
  creditLimit : Option Int
  deliveryRegion : Option String
  isVip : Option Bool
deriving DecidableEq, Repr

structure ValidationContext where
  order : Order
  user : User
  products : List Product
  productTypes : Option (List (String × ProductType))
  customerData : Option CustomerData
deriving DecidableEq, Repr

structure StockEntry where
  available : Int
  requested : Int
  type : ProductType
deriving DecidableEq, Repr

structure PaymentMeta where
  method : PaymentMethod
  amount : Int
  minimumOrderValue : Int
deriving DecidableEq, Repr

structure CustomerMeta where
  userId : String
  email : String
  isVip : Bool
deriving DecidableEq, Repr

structure BusinessMeta where
  itemCount : Nat
  productTypesInOrder : List (Option ProductType)
  isBusinessHours : Bool
deriving DecidableEq, Repr

/-- A value stored under one top-level key of the metadata record a handler
emits. -/
inductive MetaVal
  | stockInfo (entries : List (String × StockEntry))
  | paymentInfo (p : PaymentMeta)
  | customerInfo (c : CustomerMeta)
  | businessInfo (b : BusinessMeta)
deriving DecidableEq, Repr

/-- The metadata record of a ValidationResult: a partial map from key to value,
as a JavaScript object is under property lookup. -/
structure ValidationResult where
  isValid : Bool
  errors : List String
  warnings : List String
  metadata : String → Option MetaVal

/-- A metadata record holding exactly one key. -/
def metaSingle (key : String) (v : MetaVal) : String → Option MetaVal :=
  fun k => if k = key then some v else none

/-- The private mergeResults of OrderValidationHandler: conjunction of isValid,
concatenation of errors and warnings, and a shallow spread of the metadata
records in which the value of next wins on a key collision. -/
def mergeResults (current next : ValidationResult) : ValidationResult where
  isValid := current.isValid && next.isValid
  errors := current.errors ++ next.errors
  warnings := current.warnings ++ next.warnings
  metadata := fun k =>
    match next.metadata k with
    | some v => some v
    | none => current.metadata k

/-- Assignment to a property of a JavaScript object viewed as an ordered
association list: overwrite the value in place when the key is present,
append the pair otherwise. -/
def assignAssoc : List (String × α) → String → α → List (String × α)
  | [], key, v => [(key, v)]
  | (k, w) :: rest, key, v =>
    if k = key then (key, v) :: rest else (k, w) :: assignAssoc rest key v

/-- Lookup in an ordered association list (Map.prototype.get / property read). -/
def lookupA : List (String × α) → String → Option α
  | [], _ => none
  | (k, v) :: rest, key => if key = k then some v else lookupA rest key

/-- Deduplication keeping the first occurrence of each element, the iteration
order of a JavaScript Set built from an array. -/
def dedupKeepFirst [DecidableEq α] : List α → List α
  | [] => []
  | x :: xs => x :: (dedupKeepFirst xs).filter (fun y => y ≠ x)

/-- productTypes?.get(id) with the || ProductType.PHYSICAL fallback. -/
def mapGetD (m : Option (List (String × ProductType))) (key : String) : ProductType :=
  match m with
  | none => ProductType.PHYSICAL
  | some l => (lookupA l key).getD ProductType.PHYSICAL

def insufficientStockMsg (product : Product) (item : OrderItem) : String :=
  "Estoque insuficiente para " ++ product.name ++ ". Disponível: " ++
    toString product.stock ++ ", Solicitado: " ++ toString item.quantity

/-- Accumulator of the per-item loop of StockValidationHandler.validate. -/
structure StockAcc where
  errors : List String
  warnings : List String
  stockInfo : List (String × StockEntry)
deriving DecidableEq, Repr

/-- One iteration of the loop of StockValidationHandler.validate. -/
def stockStep (ctx : ValidationContext) (acc : StockAcc) (item : OrderItem) : StockAcc :=
  match ctx.products.find? (fun p => p.id == item.productId) with
  | none =>
    { acc with errors := acc.errors ++ ["Produto " ++ item.productId ++ " não encontrado"] }
  | some product =>
    let productType := mapGetD ctx.productTypes product.id
    let info1 := assignAssoc acc.stockInfo product.id ⟨product.stock, item.quantity, productType⟩
    let acc1 : StockAcc := { acc with stockInfo := info1 }
    let acc2 : StockAcc :=
      if productType = ProductType.PHYSICAL then
        if product.stock < item.quantity then
          { acc1 with errors := acc1.errors ++ [insufficientStockMsg product item] }
        else if product.stock < item.quantity * 2 then
          { acc1 with warnings := acc1.warnings ++ ["Estoque baixo para " ++ product.name] }
        else acc1
      else acc1
    let acc3 : StockAcc :=
      if productType = ProductType.DIGITAL ∧ product.stock < item.quantity then
        { acc2 with
          errors := acc2.errors ++ ["Produto digital " ++ product.name ++ " não disponível"] }
      else acc2
    if productType = ProductType.SERVICE ∧ product.stock < item.quantity then
      { acc3 with
        errors :=
          acc3.errors ++ ["Serviço " ++ product.name ++ " não tem horários disponíveis suficientes"] }
    else acc3

def stockValidate (ctx : ValidationContext) : ValidationResult :=
  let acc := ctx.order.items.foldl (stockStep ctx) ⟨[], [], []⟩
  { isValid := acc.errors.isEmpty
    errors := acc.errors
    warnings := acc.warnings
    metadata := metaSingle "stockValidation" (MetaVal.stockInfo acc.stockInfo) }

def validPaymentMethods : List PaymentMethod :=
  [PaymentMethod.PIX, PaymentMethod.CREDIT_CARD, PaymentMethod.BOLETO]

def minimumOrderValue : Int := 10

/-- The string form of the PaymentMethod enum values. -/
def pmString : PaymentMethod → String
  | PaymentMethod.CREDIT_CARD => "CREDIT_CARD"
  | PaymentMethod.PIX => "PIX"
  | PaymentMethod.BOLETO => "BOLETO"

/-- Number.prototype.toFixed(2) on the integral amounts the messages
interpolate. -/
def toFixed2 (n : Int) : String :=
  toString n ++ ".00"

def paymentValidate (ctx : ValidationContext) : ValidationResult :=
  let errors :=
    (if ctx.order.paymentMethod ∈ validPaymentMethods then []
     else ["Método de pagamento inválido: " ++ pmString ctx.order.paymentMethod])
    ++ (if ctx.order.total < minimumOrderValue then ["Valor mínimo do pedido é R$ 10.00"]
        else [])
  let warnings :=
    (if ctx.order.paymentMethod = PaymentMethod.CREDIT_CARD ∧ ctx.order.total > 5000 then
      ["Pedido de alto valor - pode requerer verificação adicional"]
     else [])
    ++ (if ctx.order.paymentMethod = PaymentMethod.BOLETO ∧ ctx.order.total > 1000 then
      ["Boletos acima de R$ 1.000 têm prazo de vencimento de 1 dia"]
     else [])
  { isValid := errors.isEmpty
    errors := errors
    warnings := warnings
    metadata := metaSingle "paymentValidation"
      (MetaVal.paymentInfo ⟨ctx.order.paymentMethod, ctx.order.total, minimumOrderValue⟩) }

def validRegions : List String := ["SP", "RJ", "MG", "RS", "PR", "SC"]

/-- Truthiness of an optional numeric field. -/
def truthyInt : Option Int → Bool
  | none => false
  | some q => q ≠ 0

/-- Truthiness of an optional string field. -/
def truthyStr : Option String → Bool
  | none => false
  | some s => s ≠ ""

/-- String.prototype.includes on a single character, over the character data of
the string. -/
def strContainsChar (s : String) (c : Char) : Bool :=
  s.data.any (fun a => a == c)

def customerValidate (ctx : ValidationContext) : ValidationResult :=
  let errors :=
    (if strContainsChar ctx.user.email '@' then [] else ["Email do usuário inválido"])
    ++ (if ctx.user.name = "" ∨ ctx.user.name.length < 2 then
        ["Nome do usuário deve ter pelo menos 2 caracteres"] else [])
  let cdErrors :=
    match ctx.customerData with
    | none => []
    | some cd =>
      (if ctx.order.paymentMethod = PaymentMethod.CREDIT_CARD ∧ truthyInt cd.creditLimit then
        (if ctx.order.total > cd.creditLimit.getD 0 then
          ["Valor do pedido excede limite de crédito: R$ " ++ toFixed2 (cd.creditLimit.getD 0)]
         else [])
       else [])
      ++ (if truthyStr cd.deliveryRegion ∧ (cd.deliveryRegion.getD "") ∉ validRegions then
          ["Região de entrega não atendida: " ++ cd.deliveryRegion.getD ""] else [])
  let warnings :=
    match ctx.customerData with
    | none => []
    | some cd =>
      if cd.isVip = some true then
        ["Cliente VIP - aplicar desconto ou frete grátis se aplicável"] else []
  { isValid := (errors ++ cdErrors).isEmpty
    errors := errors ++ cdErrors
    warnings := warnings
    metadata := metaSingle "customerValidation"
      (MetaVal.customerInfo ⟨ctx.user.id, ctx.user.email,
        ((ctx.customerData.bind (fun cd => cd.isVip)).getD false)⟩) }

/-- now.getHours() being in the 9..18 business window. -/
def isBusinessHoursAt (nowHour : Nat) : Bool :=
  decide (9 ≤ nowHour ∧ nowHour ≤ 18)

def businessValidate (ctx : ValidationContext) (nowHour : Nat) : ValidationResult :=
  let errors :=
    (if ctx.order.items.length > 10 then ["Máximo de 10 itens por pedido"] else [])
    ++ (if (ctx.order.items.map (fun i => i.productId)).length ≠
           (dedupKeepFirst (ctx.order.items.map (fun i => i.productId))).length then
        ["Não é permitido adicionar o mesmo produto múltiplas vezes"] else [])
  let warnings :=
    match ctx.productTypes with
    | none => []
    | some m =>
      let hasPhysical := ctx.order.items.any
        (fun i => lookupA m i.productId == some ProductType.PHYSICAL)
      let hasDigital := ctx.order.items.any
        (fun i => lookupA m i.productId == some ProductType.DIGITAL)
      let hasService := ctx.order.items.any
        (fun i => lookupA m i.productId == some ProductType.SERVICE)
      (if hasPhysical && hasDigital then
        ["Mistura de produtos físicos e digitais - considerar envios separados"] else [])
      ++ (if hasService && (hasPhysical || hasDigital) then
        ["Pedido contém serviços e produtos - verificar agendamentos"] else [])
  let warnings := warnings ++
    (if ctx.order.total > 1000 ∧ ¬ isBusinessHoursAt nowHour = true then
      ["Pedido de alto valor fora do horário comercial - pode ter processamento atrasado"]
     else [])
  { isValid := errors.isEmpty
    errors := errors
    warnings := warnings
    metadata := metaSingle "businessRulesValidation"
      (MetaVal.businessInfo ⟨ctx.order.items.length,
        (match ctx.productTypes with
         | none => []
         | some m => dedupKeepFirst (ctx.order.items.map (fun i => lookupA m i.productId))),
        isBusinessHoursAt nowHour⟩) }

/-- The four concrete handler classes of the chain. -/
inductive HandlerKind
  | stock
  | payment
  | customer
  | businessRules
deriving DecidableEq, Repr

/-- Dispatch to the validate method of a handler; the business-rules handler is
the only one reading the clock. -/
def runValidate : HandlerKind → ValidationContext → Nat → ValidationResult
  | HandlerKind.stock, ctx, _ => stockValidate ctx
  | HandlerKind.payment, ctx, _ => paymentValidate ctx
  | HandlerKind.customer, ctx, _ => customerValidate ctx
  | HandlerKind.businessRules, ctx, nowHour => businessValidate ctx nowHour

/-- The top-level metadata key each handler emits. -/
def handlerKey : HandlerKind → String
  | HandlerKind.stock => "stockValidation"
  | HandlerKind.payment => "paymentValidation"
  | HandlerKind.customer => "customerValidation"
  | HandlerKind.businessRules => "businessRulesValidation"

/-- OrderValidationHandler.handle on a handler whose chain of next pointers is
the given list: run the local validate; when a next handler exists and the
local result is valid, recurse and merge; otherwise return the local result. -/
def handleChain (hk : HandlerKind) (rest : List HandlerKind)
    (ctx : ValidationContext) (nowHour : Nat) : ValidationResult :=
  let result := runValidate hk ctx nowHour
  match rest with
  | [] => result
  | hk2 :: rest2 =>
    if result.isValid then mergeResults result (handleChain hk2 rest2 ctx nowHour)
    else result

/-- The chain OrderValidationChainBuilder.createCompleteChain builds, as the
use case runs it: Stock, Payment, Customer, BusinessRules in that order. -/
def completeChainResult (ctx : ValidationContext) (nowHour : Nat) : ValidationResult :=
  handleChain HandlerKind.stock
    [HandlerKind.payment, HandlerKind.customer, HandlerKind.businessRules] ctx nowHour

theorem runValidate_metadata_ne (hk : HandlerKind) (ctx : ValidationContext) (nowHour : Nat)
    (k : String) (hne : k ≠ handlerKey hk) :
    (runValidate hk ctx nowHour).metadata k = none := by
  cases hk <;>
    simp only [runValidate, handlerKey, stockValidate, paymentValidate, customerValidate,
      businessValidate, metaSingle] at hne ⊢ <;>
    simp [hne]

/-- C4: handle runs the local validate first; when the local result is invalid
the chain returns exactly that local result whatever handlers follow (so a
later handler of a different kind contributes no metadata key), and when the
local result is valid and a next handler is configured the chain returns the
merge of the local result with the result of the rest of the chain. -/
theorem chain_short_circuit_and_merge (hk : HandlerKind) (rest : List HandlerKind)
    (ctx : ValidationContext) (nowHour : Nat) :
    ((runValidate hk ctx nowHour).isValid = false →
      handleChain hk rest ctx nowHour = runValidate hk ctx nowHour
      ∧ (∀ hk2, hk2 ∈ rest → hk2 ≠ hk →
        (handleChain hk rest ctx nowHour).metadata (handlerKey hk2) = none))
    ∧ (∀ hk2 rest2, rest = hk2 :: rest2 → (runValidate hk ctx nowHour).isValid = true →
      handleChain hk rest ctx nowHour =
        mergeResults (runValidate hk ctx nowHour) (handleChain hk2 rest2 ctx nowHour)) := by
  constructor
  · intro hinv
    have hret : handleChain hk rest ctx nowHour = runValidate hk ctx nowHour := by
      cases rest with
      | nil => rfl
      | cons hk2 rest2 => simp [handleChain, hinv]
    refine ⟨hret, fun hk2 _ hne => ?_⟩
    rw [hret]
    apply runValidate_metadata_ne
    intro hkeq
    apply hne
    cases hk <;> cases hk2 <;> simp [handlerKey] at hkeq ⊢
  · intro hk2 rest2 hrest hval
    subst hrest
    simp [handleChain, hval]

/-- C5: mergeResults is associative, merged isValid is the conjunction of the
two flags, errors and warnings concatenate in handler order, and the merged
metadata is the shallow union in which the later result wins on a key
collision. -/
theorem mergeResults_monoid (a b c : ValidationResult) :
    mergeResults a (mergeResults b c) = mergeResults (mergeResults a b) c
    ∧ (mergeResults a b).isValid = (a.isValid && b.isValid)
    ∧ (mergeResults a b).errors = a.errors ++ b.errors
    ∧ (mergeResults a b).warnings = a.warnings ++ b.warnings
    ∧ ∀ k, (mergeResults a b).metadata k =
        match b.metadata k with
        | some v => some v
        | none => a.metadata k := by
  refine ⟨?_, rfl, rfl, rfl, fun k => rfl⟩
  obtain ⟨av, ae, aw, am⟩ := a
  obtain ⟨bv, be, bw, bm⟩ := b
  obtain ⟨cv, ce, cw, cm⟩ := c
  simp only [mergeResults, ValidationResult.mk.injEq]
  refine ⟨Bool.and_assoc av bv cv |>.symm ▸ rfl, (List.append_assoc ae be ce).symm,
    (List.append_assoc aw bw cw).symm, ?_⟩
  funext k
  cases cm k <;> rfl

/-- The errors the stock loop pushes for one line, read off the branches of the
loop body. -/
def itemStockErrors (ctx : ValidationContext) (item : OrderItem) : List String :=
  match ctx.products.find? (fun p => p.id == item.productId) with
  | none => ["Produto " ++ item.productId ++ " não encontrado"]
  | some product =>
    let t := mapGetD ctx.productTypes product.id
    (if t = ProductType.PHYSICAL ∧ product.stock < item.quantity then
      [insufficientStockMsg product item] else [])
    ++ (if t = ProductType.DIGITAL ∧ product.stock < item.quantity then
      ["Produto digital " ++ product.name ++ " não disponível"] else [])
    ++ (if t = ProductType.SERVICE ∧ product.stock < item.quantity then
      ["Serviço " ++ product.name ++ " não tem horários disponíveis suficientes"] else [])

/-- The warnings the stock loop pushes for one line. -/
def itemStockWarnings (ctx : ValidationContext) (item : OrderItem) : List String :=
  match ctx.products.find? (fun p => p.id == item.productId) with
  | none => []
  | some product =>
    let t := mapGetD ctx.productTypes product.id
    if t = ProductType.PHYSICAL ∧ ¬ product.stock < item.quantity
        ∧ product.stock < item.quantity * 2 then
      ["Estoque baixo para " ++ product.name]
    else []

/-- The stockInfo assignment the stock loop performs for one line. -/
def itemStockEntry (ctx : ValidationContext) (item : OrderItem) : Option (String × StockEntry) :=
  match ctx.products.find? (fun p => p.id == item.productId) with
  | none => none
  | some product =>
    some (product.id, ⟨product.stock, item.quantity, mapGetD ctx.productTypes product.id⟩)

theorem stockStep_eq (ctx : ValidationContext) (acc : StockAcc) (item : OrderItem) :
    stockStep ctx acc item =
      ⟨acc.errors ++ itemStockErrors ctx item,
       acc.warnings ++ itemStockWarnings ctx item,
       match itemStockEntry ctx item with
       | some kv => assignAssoc acc.stockInfo kv.1 kv.2
       | none => acc.stockInfo⟩ := by
  unfold stockStep itemStockErrors itemStockWarnings itemStockEntry
  cases hfind : ctx.products.find? (fun p => p.id == item.productId) with
  | none => simp
  | some product =>
    cases ht : mapGetD ctx.productTypes product.id <;>
      by_cases h1 : product.stock < item.quantity <;>
      by_cases h2 : product.stock < item.quantity * 2 <;>
      simp [ht, h1, h2]

theorem foldl_stockStep_errors (ctx : ValidationContext) (items : List OrderItem)
    (acc : StockAcc) :
    (items.foldl (stockStep ctx) acc).errors = acc.errors ++ items.flatMap (itemStockErrors ctx) := by
  induction items generalizing acc with
  | nil => simp
  | cons item rest ih =>
    rw [List.foldl_cons, ih, stockStep_eq]
    simp [List.append_assoc]

theorem foldl_stockStep_warnings (ctx : ValidationContext) (items : List OrderItem)
    (acc : StockAcc) :
    (items.foldl (stockStep ctx) acc).warnings =
      acc.warnings ++ items.flatMap (itemStockWarnings ctx) := by
  induction items generalizing acc with
  | nil => simp
  | cons item rest ih =>
    rw [List.foldl_cons, ih, stockStep_eq]
    simp [List.append_assoc]

theorem lookupA_assignAssoc (m : List (String × α)) (key : String) (v : α) (k2 : String) :
    lookupA (assignAssoc m key v) k2 = if k2 = key then some v else lookupA m k2 := by
  induction m with
  | nil => simp [assignAssoc, lookupA]
  | cons kv rest ih =>
    obtain ⟨k, w⟩ := kv
    by_cases h : k = key
    · subst h
      by_cases h2 : k2 = k <;> simp [assignAssoc, lookupA, h2]
    · by_cases h2 : k2 = k
      · subst h2
        simp [assignAssoc, lookupA, h, Ne.symm h]
      · by_cases h3 : k2 = key
        · subst h3
          simp [assignAssoc, lookupA, h, h2, ih]
        · simp [assignAssoc, lookupA, h, h2, h3, ih]

/-- The stockInfo entry the loop leaves for a key: that of the last line that
assigned it. -/
def lastStockEntry (ctx : ValidationContext) : List OrderItem → String → Option StockEntry
  | [], _ => none
  | item :: rest, pid =>
    match lastStockEntry ctx rest pid with
    | some e => some e
    | none =>
      match itemStockEntry ctx item with
      | some kv => if pid = kv.1 then some kv.2 else none
      | none => none

theorem foldl_stockStep_stockInfo (ctx : ValidationContext) (items : List OrderItem)
    (acc : StockAcc) (pid : String) :
    lookupA ((items.foldl (stockStep ctx) acc).stockInfo) pid =
      match lastStockEntry ctx items pid with
      | some e => some e
      | none => lookupA acc.stockInfo pid := by
  induction items generalizing acc with
  | nil => simp [lastStockEntry]
  | cons item rest ih =>
    rw [List.foldl_cons, ih]
    simp only [lastStockEntry]
    cases hrest : lastStockEntry ctx rest pid with
    | some e => rfl
    | none =>
      rw [stockStep_eq]
      cases hentry : itemStockEntry ctx item with
      | none => rfl
      | some kv =>
        simp only [lookupA_assignAssoc]
        by_cases hp : pid = kv.1 <;> simp [hp]

/-- The stockInfo record the stock handler emits for a context. -/
def stockInfoOf (ctx : ValidationContext) : List (String × StockEntry) :=
  (ctx.order.items.foldl (stockStep ctx) ⟨[], [], []⟩).stockInfo

theorem stockValidate_errors (ctx : ValidationContext) :
    (stockValidate ctx).errors = ctx.order.items.flatMap (itemStockErrors ctx) := by
  show (ctx.order.items.foldl (stockStep ctx) ⟨[], [], []⟩).errors = _
  rw [foldl_stockStep_errors]
  rfl

theorem stockValidate_warnings (ctx : ValidationContext) :
    (stockValidate ctx).warnings = ctx.order.items.flatMap (itemStockWarnings ctx) := by
  show (ctx.order.items.foldl (stockStep ctx) ⟨[], [], []⟩).warnings = _
  rw [foldl_stockStep_warnings]
  rfl

theorem lastStockEntry_eq_reverse_find (ctx : ValidationContext) (items : List OrderItem)
    (pid : String) (p : Product)
    (hp : ctx.products.find? (fun q => q.id == pid) = some p) :
    lastStockEntry ctx items pid =
      (items.reverse.find? (fun i => i.productId == pid)).map
        (fun i => ⟨p.stock, i.quantity, mapGetD ctx.productTypes p.id⟩) := by
  have hpid : p.id = pid := by
    have := List.find?_some hp
    simpa [beq_iff_eq] using this
  induction items with
  | nil => rfl
  | cons item rest ih =>
    simp only [lastStockEntry, List.reverse_cons, List.find?_append, ih]
    cases hr : rest.reverse.find? (fun i => i.productId == pid) with
    | some j => rfl
    | none =>
      simp only [Option.none_or]
      by_cases hip : item.productId = pid
      · have hentry : itemStockEntry ctx item =
            some (p.id, ⟨p.stock, item.quantity, mapGetD ctx.productTypes p.id⟩) := by
          unfold itemStockEntry
          rw [hip, hp]
        rw [hentry]
        simp [List.find?, hip, hpid]
      · have : (fun i => i.productId == pid) item = false := by
          simp [hip]
        simp only [List.find?_cons, this, List.find?_nil]
        cases hentry : itemStockEntry ctx item with
        | none => rfl
        | some kv =>
          have hkv : kv.1 = item.productId := by
            unfold itemStockEntry at hentry
            cases hfind : ctx.products.find? (fun q => q.id == item.productId) with
            | none => rw [hfind] at hentry; cases hentry
            | some q =>
              rw [hfind] at hentry
              have := List.find?_some hfind
              simp only [beq_iff_eq] at this
              cases hentry
              exact this
          have : ¬ pid = kv.1 := by
            rw [hkv]
            exact fun hh => hip hh.symm
          simp [this]

/-- C8 (amended): the per-line stock policy. A line whose product is missing
contributes the not-found error; a PHYSICAL line with stock below quantity
contributes the insufficiency error, and with stock below twice the quantity
(but not below the quantity) the low-stock warning; a DIGITAL or SERVICE line
with stock below quantity contributes its unavailability error; and the handler
emits metadata.stockValidation whose entry for the productId of the line is
{available, requested, type} taken from the LAST line with that productId
(later duplicate lines overwrite earlier ones), which is the line itself
whenever productIds are distinct across lines. -/
theorem stock_handler_per_line_policy (ctx : ValidationContext) (item : OrderItem)
    (hmem : item ∈ ctx.order.items) :
    (ctx.products.find? (fun p => p.id == item.productId) = none →
      ("Produto " ++ item.productId ++ " não encontrado") ∈ (stockValidate ctx).errors)
    ∧ (∀ p, ctx.products.find? (fun q => q.id == item.productId) = some p →
      ((mapGetD ctx.productTypes p.id = ProductType.PHYSICAL →
        (p.stock < item.quantity → insufficientStockMsg p item ∈ (stockValidate ctx).errors)
        ∧ (¬ p.stock < item.quantity → p.stock < item.quantity * 2 →
          ("Estoque baixo para " ++ p.name) ∈ (stockValidate ctx).warnings))
      ∧ (mapGetD ctx.productTypes p.id = ProductType.DIGITAL → p.stock < item.quantity →
        ("Produto digital " ++ p.name ++ " não disponível") ∈ (stockValidate ctx).errors)
      ∧ (mapGetD ctx.productTypes p.id = ProductType.SERVICE → p.stock < item.quantity →
        ("Serviço " ++ p.name ++ " não tem horários disponíveis suficientes")
          ∈ (stockValidate ctx).errors)
      ∧ (stockValidate ctx).metadata "stockValidation" =
          some (MetaVal.stockInfo (stockInfoOf ctx))
      ∧ (∀ j, ctx.order.items.reverse.find? (fun i => i.productId == item.productId) = some j →
        lookupA (stockInfoOf ctx) item.productId =
          some ⟨p.stock, j.quantity, mapGetD ctx.productTypes p.id⟩))) := by
  constructor
  · intro hfind
    rw [stockValidate_errors]
    refine List.mem_flatMap.mpr ⟨item, hmem, ?_⟩
    unfold itemStockErrors
    rw [hfind]
    exact List.mem_singleton.mpr rfl
  · intro p hp
    refine ⟨?_, ?_, ?_, rfl, ?_⟩
    · intro ht
      constructor
      · intro hlt
        rw [stockValidate_errors]
        refine List.mem_flatMap.mpr ⟨item, hmem, ?_⟩
        unfold itemStockErrors
        rw [hp]
        simp [ht, hlt]
      · intro hge hlow
        rw [stockValidate_warnings]
        refine List.mem_flatMap.mpr ⟨item, hmem, ?_⟩
        unfold itemStockWarnings
        rw [hp]
        simp [ht, hge, hlow]
    · intro ht hlt
      rw [stockValidate_errors]
      refine List.mem_flatMap.mpr ⟨item, hmem, ?_⟩
      unfold itemStockErrors
      rw [hp]
      simp [ht, hlt]
    · intro ht hlt
      rw [stockValidate_errors]
      refine List.mem_flatMap.mpr ⟨item, hmem, ?_⟩
      unfold itemStockErrors
      rw [hp]
      simp [ht, hlt]
    · intro j hj
      have hlook := foldl_stockStep_stockInfo ctx ctx.order.items ⟨[], [], []⟩ item.productId
      have hlast := lastStockEntry_eq_reverse_find ctx ctx.order.items item.productId p hp
      rw [hlast, hj] at hlook
      exact hlook

def userA : User :=
  { id := "u1", email := "alice@example.com", password := "secret1", name := "Alice" }

def productP1 : Product :=
  { id := "p1", name := "Caneca Azul", description := "Caneca de ceramica azul",
    price := 50, stock := 100, categoryId := "c1", status := ProductStatus.ACTIVE }

/-- A context every handler accepts, used to observe the whole chain running. -/
def ctxC9 : ValidationContext :=
  { order := singleItemOrder, user := userA, products := [productP1],
    productTypes := some [("p1", ProductType.PHYSICAL)], customerData := none }

/-- C9 counterexample: the SAME unchanged context validated at hour 10 and at
hour 20 yields different ValidationResults, because the business-rules handler
reads the clock and records isBusinessHours in its metadata. -/
theorem revalidation_different_hour_cex :
    completeChainResult ctxC9 10 ≠ completeChainResult ctxC9 20 := by
  intro h
  have h2 : (completeChainResult ctxC9 10).metadata "businessRulesValidation"
      = (completeChainResult ctxC9 20).metadata "businessRulesValidation" := by rw [h]
  exact absurd h2 (by decide)

theorem runValidate_hour_invariant (hk : HandlerKind) (ctx : ValidationContext)
    (h1 h2 : Nat) (hb : isBusinessHoursAt h1 = isBusinessHoursAt h2) :
    runValidate hk ctx h1 = runValidate hk ctx h2 := by
  cases hk
  · rfl
  · rfl
  · rfl
  · simp only [runValidate, businessValidate]
    rw [hb]

theorem handleChain_hour_invariant (rest : List HandlerKind) (hk : HandlerKind)
    (ctx : ValidationContext) (h1 h2 : Nat)
    (hb : isBusinessHoursAt h1 = isBusinessHoursAt h2) :
    handleChain hk rest ctx h1 = handleChain hk rest ctx h2 := by
  induction rest generalizing hk with
  | nil =>
    show runValidate hk ctx h1 = runValidate hk ctx h2
    exact runValidate_hour_invariant hk ctx h1 h2 hb
  | cons hk2 rest2 ih =>
    show (if (runValidate hk ctx h1).isValid then _ else _)
      = (if (runValidate hk ctx h2).isValid then _ else _)
    rw [runValidate_hour_invariant hk ctx h1 h2 hb, ih hk2]

/-- C9 (amended): the validation chain is deterministic in the context and the
business-hours classification of the clock: re-validating an unchanged context
produces an identical ValidationResult whenever the two runs agree on being
inside or outside the 9..18 business-hours window (and in particular whenever
they happen at the same hour). -/
theorem revalidation_same_hours_idempotent (ctx : ValidationContext) (h1 h2 : Nat)
    (hb : isBusinessHoursAt h1 = isBusinessHoursAt h2) :
    completeChainResult ctx h1 = completeChainResult ctx h2 := by
  unfold completeChainResult
  exact handleChain_hour_invariant _ _ ctx h1 h2 hb

theorem revalidation_same_hours_idempotent_witness :
    completeChainResult ctxC9 10 = completeChainResult ctxC9 12 :=
  revalidation_same_hours_idempotent ctxC9 10 12 rfl

/-- A pending order with two lines carrying the same productId and different
quantities. -/
def orderDup : Order :=
  { id := "o2", userId := "u1",
    items := [{ id := "i1", productId := "p1", quantity := 1, price := 50 },
              { id := "i2", productId := "p1", quantity := 3, price := 50 }],
    status := OrderStatus.PENDING,
    paymentMethod := PaymentMethod.PIX,
    paymentStatus := PaymentStatus.PENDING }

def ctxDup : ValidationContext :=
  { order := orderDup, user := userA, products := [productP1],
    productTypes := some [("p1", ProductType.PHYSICAL)], customerData := none }

/-- C8 counterexample: with two lines for the same productId, the stock
metadata holds ONE entry for that productId, the one of the second line
(requested 3), not the entry of the first line (requested 1), so the claim that
every found line gets its own {available, requested, type} entry fails. -/
theorem stock_metadata_duplicate_line_cex :
    ctxDup.order.items.head? =
      some { id := "i1", productId := "p1", quantity := 1, price := 50 }
    ∧ ctxDup.products.find? (fun p => p.id == "p1") = some productP1
    ∧ (stockValidate ctxDup).metadata "stockValidation" =
        some (MetaVal.stockInfo (stockInfoOf ctxDup))
    ∧ lookupA (stockInfoOf ctxDup) "p1" =
        some { available := 100, requested := 3, type := ProductType.PHYSICAL }
    ∧ ¬ lookupA (stockInfoOf ctxDup) "p1" =
        some { available := 100, requested := 1, type := ProductType.PHYSICAL } := by
  refine ⟨rfl, by decide, rfl, by decide, by decide⟩

def itemPx : OrderItem := { id := "i1", productId := "px", quantity := 1, price := 5 }

def orderPx : Order :=
  { id := "o3", userId := "u1", items := [itemPx],
    status := OrderStatus.PENDING, paymentMethod := PaymentMethod.PIX,
    paymentStatus := PaymentStatus.PENDING }

def ctxMissing : ValidationContext :=
  { order := orderPx, user := userA, products := [],
    productTypes := none, customerData := none }

theorem stock_handler_per_line_policy_witness :
    ("Produto " ++ itemPx.productId ++ " não encontrado") ∈ (stockValidate ctxMissing).errors := by
  have h := stock_handler_per_line_policy ctxMissing itemPx (by decide)
  exact h.1 (by decide)

/-- The untyped paymentData blob: each strategy destructures the fields it
needs; a field the caller did not supply is none. -/
structure PaymentData where
  cardNumber : Option String := none
  expiryDate : Option String := none
  cvv : Option String := none
  cardholderName : Option String := none
  pixKey : Option String := none
  userDocument : Option String := none
  userName : Option String := none
  userAddress : Option String := none
deriving DecidableEq, Repr

/-- The \w class of the regexes (ASCII word character). -/
def isWordChar (c : Char) : Bool :=
  c.isAlphanum || c == '_'

/-- A hexadecimal digit, case-insensitive. -/
def isHexDigitChar (c : Char) : Bool :=
  c.isDigit || ('a' ≤ c && c ≤ 'f') || ('A' ≤ c && c ≤ 'F')

/-- An anchored run of exactly n digits. -/
def allDigitsLen (n : Nat) (s : String) : Bool :=
  s.data.length == n && s.data.all Char.isDigit

/-- replace(/\s/g, ""). -/
def stripWhitespace (s : String) : String :=
  String.mk (s.data.filter (fun c => !c.isWhitespace))

/-- String.prototype.split on a one-character separator. -/
def splitOnChar (c : Char) : List Char → List (List Char)
  | [] => [[]]
  | a :: rest =>
    let r := splitOnChar c rest
    if a == c then [] :: r
    else
      match r with
      | [] => [[a]]
      | g :: gs => (a :: g) :: gs

def splitStr (s : String) (c : Char) : List String :=
  (splitOnChar c s.data).map String.mk

/-- Number.parseInt: optional sign then a leading digit run; none models NaN. -/
def parseIntJs (s : String) : Option Int :=
  let t := s.data.dropWhile (fun c => c.isWhitespace)
  let st : Int × List Char :=
    match t with
    | '-' :: rest => (-1, rest)
    | '+' :: rest => (1, rest)
    | _ => (1, t)
  let digits := st.2.takeWhile Char.isDigit
  if digits.isEmpty then none
  else some (st.1 * ((digits.foldl (fun acc c => acc * 10 + (c.toNat - '0'.toNat)) 0 : Nat) : Int))

/-- The expiry check of the card validator: new Date(2000 + year, month - 1)
must lie strictly after the current time, months being linearised; when either
parseInt yields NaN, the Date comparison is false and the check passes, as in
the source. -/
def expiryStrictlyFuture (expiryDate : String) (nowMonths : Int) : Bool :=
  let parts := splitStr expiryDate '/'
  match (parts.get? 0).bind parseIntJs, (parts.get? 1).bind parseIntJs with
  | some month, some year =>
    if (2000 + year) * 12 + (month - 1) ≤ nowMonths then false else true
  | _, _ => true

def ccValidate (d : PaymentData) (nowMonths : Int) : Bool :=
  if ¬ (truthyStr d.cardNumber ∧ truthyStr d.expiryDate ∧ truthyStr d.cvv
      ∧ truthyStr d.cardholderName) then false
  else if ¬ allDigitsLen 16 (stripWhitespace (d.cardNumber.getD "")) then false
  else if ¬ ((d.cvv.getD "").data.all Char.isDigit
      ∧ ((d.cvv.getD "").data.length = 3 ∨ (d.cvv.getD "").data.length = 4)) then false
  else expiryStrictlyFuture (d.expiryDate.getD "") nowMonths

/-- The email alternative of the pix-key regex. -/
def isEmailLikePix (s : String) : Bool :=
  match splitStr s '@' with
  | [lp, dp] =>
    let lpOk := !lp.data.isEmpty
      && lp.data.all (fun c => isWordChar c || c == '.' || c == '-')
    let dparts := splitStr dp '.'
    let tail := dparts.getLastD ""
    let dpOk := !dparts.dropLast.isEmpty
      && !(String.intercalate "." dparts.dropLast).data.isEmpty
      && (dparts.dropLast.all (fun part => part.data.all (fun c => isWordChar c || c == '-')))
      && !tail.data.isEmpty && tail.data.all isWordChar
    lpOk && dpOk
  | _ => false

/-- The UUID alternative of the pix-key regex. -/
def isUuidLike (s : String) : Bool :=
  match splitStr s '-' with
  | [a, b, c, d, e] =>
    a.data.length == 8 && b.data.length == 4 && c.data.length == 4
      && d.data.length == 4 && e.data.length == 12
      && (a.data ++ b.data ++ c.data ++ d.data ++ e.data).all isHexDigitChar
  | _ => false

def pixKeyMatches (s : String) : Bool :=
  isEmailLikePix s || allDigitsLen 11 s || allDigitsLen 14 s || isUuidLike s

def pixValidate (d : PaymentData) : Bool :=
  if ¬ (truthyStr d.pixKey ∧ truthyStr d.userDocument) then false
  else pixKeyMatches (d.pixKey.getD "")

def boletoValidate (d : PaymentData) : Bool :=
  if ¬ (truthyStr d.userDocument ∧ truthyStr d.userName ∧ truthyStr d.userAddress) then false
  else
    let clean := (d.userDocument.getD "").data.filter Char.isDigit
    clean.length == 11 || clean.length == 14

/-- validatePaymentData of the strategy matching the method. -/
def strategyValidate : PaymentMethod → PaymentData → Int → Bool
  | PaymentMethod.CREDIT_CARD, d, nowMonths => ccValidate d nowMonths
  | PaymentMethod.PIX, d, _ => pixValidate d
  | PaymentMethod.BOLETO, d, _ => boletoValidate d

structure PaymentResult where
  success : Bool
  transactionId : Option String
  errorMessage : Option String
  processingTime : Option Int
deriving DecidableEq, Repr

/-- The ambient inputs of one processPayment call: the current time in months
(for the expiry check), the Math.random draw tested against the failure rate,
the random transaction-id suffix and the measured processing time. -/
structure PayEnv where
  nowMonths : Int
  draw : Rat
  idSuffix : String
  procTime : Int

def ccFailureRate : Rat := 5 / 100

def pixFailureRate : Rat := 1 / 100

/-- processPayment of the strategy matching the method: validate first and
return a failed result with no transaction simulation on invalid data; then
the simulated gateway decline (credit card 5 percent, pix 1 percent, boleto
never); then the successful result with the method-prefixed transaction id. -/
def strategyProcess : PaymentMethod → Int → PaymentData → PayEnv → PaymentResult
  | PaymentMethod.CREDIT_CARD, _, d, env =>
    if ¬ ccValidate d env.nowMonths then
      ⟨false, none, some "Invalid credit card data", none⟩
    else if env.draw < ccFailureRate then
      ⟨false, none, some "Payment declined by bank", some env.procTime⟩
    else
      ⟨true, some ("cc_" ++ env.idSuffix), none, some env.procTime⟩
  | PaymentMethod.PIX, _, d, env =>
    if ¬ pixValidate d then
      ⟨false, none, some "Invalid PIX data", none⟩
    else if env.draw < pixFailureRate then
      ⟨false, none, some "PIX key not found or inactive", some env.procTime⟩
    else
      ⟨true, some ("pix_" ++ env.idSuffix), none, some env.procTime⟩
  | PaymentMethod.BOLETO, _, d, env =>
    if ¬ boletoValidate d then
      ⟨false, none, some "Invalid boleto data", none⟩
    else
      ⟨true, some ("boleto_" ++ env.idSuffix), none, some env.procTime⟩

def invalidDataMsg : PaymentMethod → String
  | PaymentMethod.CREDIT_CARD => "Invalid credit card data"
  | PaymentMethod.PIX => "Invalid PIX data"
  | PaymentMethod.BOLETO => "Invalid boleto data"

/-- C7: for every strategy, amount, payment data and ambient draw, process
validates first: invalid data yields the failed result carrying the
invalid-data message, no transactionId and no processingTime (no transaction
was simulated); and in every result produced, transactionId is present exactly
when success holds and errorMessage exactly when it does not. -/
theorem payment_process_validates_first_and_result_shape
    (m : PaymentMethod) (amount : Int) (d : PaymentData) (env : PayEnv) :
    (strategyValidate m d env.nowMonths = false →
      strategyProcess m amount d env =
        ⟨false, none, some (invalidDataMsg m), none⟩)
    ∧ (strategyProcess m amount d env).transactionId.isSome
        = (strategyProcess m amount d env).success
    ∧ (strategyProcess m amount d env).errorMessage.isSome
        = !(strategyProcess m amount d env).success := by
  cases m <;>
    simp only [strategyProcess, strategyValidate, invalidDataMsg] <;>
    split_ifs <;>
    simp_all

def Product.isAvailable (p : Product) : Bool :=
  p.status == ProductStatus.ACTIVE && decide (0 < p.stock)

/-- Product.updateStock: reject a negative stock, store the value and keep the
ACTIVE / OUT_OF_STOCK flag in sync with it. -/
def Product.updateStock (p : Product) (newStock : Int) : Except String Product :=
  if newStock < 0 then Except.error "Product stock cannot be negative"
  else
    let status2 :=
      if newStock = 0 ∧ p.status = ProductStatus.ACTIVE then ProductStatus.OUT_OF_STOCK
      else if 0 < newStock ∧ p.status = ProductStatus.OUT_OF_STOCK then ProductStatus.ACTIVE
      else p.status
    Except.ok { p with stock := newStock, status := status2 }

def Product.decreaseStock (p : Product) (quantity : Int) : Except String Product :=
  if quantity ≤ 0 then Except.error "Quantity must be greater than 0"
  else if quantity > p.stock then Except.error "Insufficient stock"
  else p.updateStock (p.stock - quantity)

/-- The persisted stores the pipeline touches: users, products and orders. -/
structure World where
  users : List User
  products : List Product
  orders : List Order
deriving DecidableEq, Repr

def userFindById (w : World) (uid : String) : Option User :=
  w.users.find? (fun u => u.id == uid)

/-- findByIds of the product repository: the rows whose id is among the asked
ids, in store order, each at most once. -/
def productFindByIds (w : World) (ids : List String) : List Product :=
  w.products.filter (fun p => ids.contains p.id)

def productFindById (w : World) (pid : String) : Option Product :=
  w.products.find? (fun p => p.id == pid)

def productUpdate (w : World) (p : Product) : World :=
  { w with products := w.products.map (fun q => if q.id == p.id then p else q) }

structure CreateOrderItemRequest where
  productId : String
  quantity : Int
deriving DecidableEq, Repr

structure CreateOrderRequest where
  userId : String
  items : List CreateOrderItemRequest
  paymentMethod : PaymentMethod
  paymentData : PaymentData
  customerData : Option CustomerData
deriving DecidableEq, Repr

structure ResponsePayment where
  transactionId : Option String
  processingTime : Option Int
deriving DecidableEq, Repr

structure CreateOrderResponse where
  success : Bool
  order : Option Order
  error : Option String
  paymentResult : Option ResponsePayment
  validationResult : Option ValidationResult

def failResp (msg : String) : CreateOrderResponse :=
  { success := false, order := none, error := some msg, paymentResult := none,
    validationResult := none }

def firstItemShapeError : List CreateOrderItemRequest → Option String
  | [] => none
  | i :: rest =>
    if i.productId = "" then some "Product ID is required for all items"
    else if i.quantity ≤ 0 then some "Item quantity must be greater than 0"
    else firstItemShapeError rest

/-- validateRequest of the use case; the paymentMethod presence check of the
source is vacuous here because the embedding types the field with the enum. -/
def validateRequest (r : CreateOrderRequest) : Option String :=
  if r.userId = "" then some "User ID is required"
  else if r.items.isEmpty then some "Order must have at least one item"
  else firstItemShapeError r.items

def toLowerStr (s : String) : String :=
  String.mk (s.data.map Char.toLower)

def isSubListOf (needle : List Char) : List Char → Bool
  | [] => needle.isEmpty
  | c :: rest => needle.isPrefixOf (c :: rest) || isSubListOf needle rest

/-- String.prototype.includes. -/
def containsSub (s pat : String) : Bool :=
  isSubListOf pat.data s.data

/-- The name-token heuristic classifying a product as digital, service or
physical. -/
def classifyProduct (p : Product) : ProductType :=
  let n := toLowerStr p.name
  if containsSub n "curso" || containsSub n "ebook" || containsSub n "digital" then
    ProductType.DIGITAL
  else if containsSub n "consultoria" || containsSub n "serviço" || containsSub n "aula" then
    ProductType.SERVICE
  else
    ProductType.PHYSICAL

structure PreparedItems where
  items : List OrderItem
  products : List Product
  productTypes : List (String × ProductType)
deriving DecidableEq, Repr

/-- The per-item loop of validateAndPrepareItems: find the product, reject an
unavailable one, classify its type and build the order line with a generated
item id. -/
def prepareLoop (products : List Product) (env : Nat → String) :
    List CreateOrderItemRequest → Nat → List OrderItem → List (String × ProductType) →
      Except String (List OrderItem × List (String × ProductType))
  | [], _, accItems, accTypes => Except.ok (accItems, accTypes)
  | item :: rest, idx, accItems, accTypes =>
    match products.find? (fun p => p.id == item.productId) with
    | none => Except.error ("Product not found: " ++ item.productId)
    | some product =>
      if ¬ product.isAvailable then
        Except.error ("Product not available: " ++ product.name)
      else
        prepareLoop products env rest (idx + 1)
          (accItems ++ [⟨env idx, product.id, item.quantity, product.price⟩])
          (assignAssoc accTypes product.id (classifyProduct product))

/-- The ambient inputs of one execute call: the generated order id, the item-id
generator, the payment ambient inputs and the clock hour. -/
structure PipelineEnv where
  orderId : String
  itemIds : Nat → String
  pay : PayEnv
  nowHour : Nat

/-- The ids the batch lookup did not return: productIds.filter(id =>
!foundIds.includes(id)). -/
def missingIdsOf (w : World) (productIds : List String) : List String :=
  productIds.filter
    (fun pid => ¬ ((productFindByIds w productIds).map (fun p => p.id)).contains pid)

def validateAndPrepareItems (w : World) (env : PipelineEnv)
    (items : List CreateOrderItemRequest) : Except String PreparedItems :=
  let productIds := items.map (fun i => i.productId)
  let products := productFindByIds w productIds
  if products.length ≠ productIds.length then
    Except.error ("Products not found: " ++ String.intercalate ", " (missingIdsOf w productIds))
  else
    match prepareLoop products env.itemIds items 0 [] [] with
    | Except.error msg => Except.error msg
    | Except.ok (orderItems, productTypes) =>
      Except.ok ⟨orderItems, products, productTypes⟩

def firstCtorItemError : List OrderItem → Option String
  | [] => none
  | i :: rest =>
    if i.quantity ≤ 0 then some "Item quantity must be greater than 0"
    else if i.price ≤ 0 then some "Item price must be greater than 0"
    else firstCtorItemError rest

/-- validateOrder run by the Order constructor. -/
def orderCtorError (userId : String) (items : List OrderItem) : Option String :=
  if userId = "" then some "Order must have a user"
  else if items.isEmpty then some "Order must have at least one item"
  else firstCtorItemError items

def pipelineOrder (env : PipelineEnv) (req : CreateOrderRequest)
    (prep : PreparedItems) : Order :=
  { id := env.orderId, userId := req.userId, items := prep.items,
    status := OrderStatus.PENDING, paymentMethod := req.paymentMethod,
    paymentStatus := PaymentStatus.PENDING }

def pipelineContext (order : Order) (user : User) (prep : PreparedItems)
    (req : CreateOrderRequest) : ValidationContext :=
  { order := order, user := user, products := prep.products,
    productTypes := some prep.productTypes, customerData := req.customerData }

/-- paymentResult.errorMessage || "Payment failed". -/
def errorOrPaymentFailed : Option String → String
  | none => "Payment failed"
  | some m => if m = "" then "Payment failed" else m

/-- The stock-update loop of step 9: per line, re-read the product and
decrement; a throw aborts the loop, the world keeping every earlier decrement. -/
def updateStockLoop : World → List OrderItem → Except (String × World) World
  | w, [] => Except.ok w
  | w, item :: rest =>
    match productFindById w item.productId with
    | none => updateStockLoop w rest
    | some p =>
      match p.decreaseStock item.quantity with
      | Except.error msg => Except.error (msg, w)
      | Except.ok p2 => updateStockLoop (productUpdate w p2) rest

/-- CreateOrderUseCase.execute: request shape, user lookup, item preparation,
order construction, validation chain, payment, completePayment, persistence,
stock update; a thrown error is caught and returned as a failure response. -/
def execute (w : World) (env : PipelineEnv) (req : CreateOrderRequest) :
    CreateOrderResponse × World :=
  match validateRequest req with
  | some msg => (failResp msg, w)
  | none =>
    match userFindById w req.userId with
    | none => (failResp "User not found", w)
    | some user =>
      match validateAndPrepareItems w env req.items with
      | Except.error msg => (failResp msg, w)
      | Except.ok prep =>
        match orderCtorError req.userId prep.items with
        | some msg => (failResp msg, w)
        | none =>
          let order := pipelineOrder env req prep
          let vr := completeChainResult (pipelineContext order user prep req) env.nowHour
          if vr.isValid = false then
            ({ success := false, order := none,
               error := some (String.intercalate "; " vr.errors),
               paymentResult := none, validationResult := some vr }, w)
          else
            let pr := strategyProcess req.paymentMethod order.total req.paymentData env.pay
            if pr.success = false then
              (failResp (errorOrPaymentFailed pr.errorMessage), w)
            else
              match order.completePayment with
              | ⟨some msg, _⟩ => (failResp msg, w)
              | ⟨none, order2⟩ =>
                let w1 : World := { w with orders := w.orders ++ [order2] }
                match updateStockLoop w1 prep.items with
                | Except.error (msg, w2) => (failResp msg, w2)
                | Except.ok w2 =>
                  ({ success := true, order := some order2, error := none,
                     paymentResult := some ⟨pr.transactionId, pr.processingTime⟩,
                     validationResult := some vr }, w2)

/-- C6: once the pipeline reaches the validation chain (shape, user lookup,
item preparation and order construction all succeed), a failing chain makes
execute return the aggregated errors with the validation result and leave the
world untouched, and a failing payment after a passing chain makes execute
return the payment failure reason and leave the world untouched: nothing is
persisted and no stock moves on either failure path. -/
theorem createOrder_failure_has_no_side_effects (w : World) (env : PipelineEnv)
    (req : CreateOrderRequest) (user : User) (prep : PreparedItems)
    (hshape : validateRequest req = none)
    (huser : userFindById w req.userId = some user)
    (hprep : validateAndPrepareItems w env req.items = Except.ok prep)
    (hctor : orderCtorError req.userId prep.items = none) :
    ((completeChainResult (pipelineContext (pipelineOrder env req prep) user prep req)
        env.nowHour).isValid = false →
      execute w env req =
        ({ success := false, order := none,
           error := some (String.intercalate "; "
             (completeChainResult (pipelineContext (pipelineOrder env req prep) user prep req)
               env.nowHour).errors),
           paymentResult := none,
           validationResult := some (completeChainResult
             (pipelineContext (pipelineOrder env req prep) user prep req) env.nowHour) }, w))
    ∧ ((completeChainResult (pipelineContext (pipelineOrder env req prep) user prep req)
        env.nowHour).isValid = true →
      (strategyProcess req.paymentMethod (pipelineOrder env req prep).total
        req.paymentData env.pay).success = false →
      execute w env req =
        (failResp (errorOrPaymentFailed (strategyProcess req.paymentMethod
          (pipelineOrder env req prep).total req.paymentData env.pay).errorMessage), w)) := by
  constructor
  · intro hv
    simp [execute, hshape, huser, hprep, hctor, hv]
  · intro hv hp
    simp [execute, hshape, huser, hprep, hctor, hv, hp]

def productW : Product :=
  { id := "p1", name := "Caneca Azul", description := "Caneca de ceramica azul",
    price := 5, stock := 10, categoryId := "c1", status := ProductStatus.ACTIVE }

def wW : World := { users := [userA], products := [productW], orders := [] }

def envW : PipelineEnv :=
  { orderId := "order_1", itemIds := fun n => "item_" ++ toString n,
    pay := { nowMonths := 0, draw := 1, idSuffix := "x", procTime := 0 },
    nowHour := 10 }

def reqW : CreateOrderRequest :=
  { userId := "u1", items := [{ productId := "p1", quantity := 1 }],
    paymentMethod := PaymentMethod.PIX, paymentData := {}, customerData := none }

def prepW : PreparedItems :=
  { items := [{ id := "item_0", productId := "p1", quantity := 1, price := 5 }],
    products := [productW], productTypes := [("p1", ProductType.PHYSICAL)] }

theorem createOrder_failure_has_no_side_effects_witness :
    (execute wW envW reqW).2 = wW := by
  have h := (createOrder_failure_has_no_side_effects wW envW reqW userA prepW
    (by decide) (by decide) (by rfl) (by decide)).1 (by decide)
  exact congrArg Prod.snd h

/-- C10: a request repeating a productId on two lines is rejected by the
item-preparation step with the Products-not-found error even though every
referenced product exists in the store (the missing-ids list is empty, so the
message names none), and execute therefore fails before the validation chain
(and its duplicate-product rule) ever runs, leaving the world untouched. -/
theorem duplicate_product_lines_rejected_as_not_found (w : World) (env : PipelineEnv)
    (req : CreateOrderRequest)
    (hdup : ¬ (req.items.map (fun i => i.productId)).Nodup)
    (hall : ∀ it ∈ req.items, ∃ p ∈ w.products, p.id = it.productId)
    (hids : (w.products.map (fun p => p.id)).Nodup) :
    validateAndPrepareItems w env req.items = Except.error "Products not found: "
    ∧ (validateRequest req = none → ∀ u, userFindById w req.userId = some u →
        execute w env req = (failResp "Products not found: ", w)) := by
  have hlen : (productFindByIds w (req.items.map (fun i => i.productId))).length
      < (req.items.map (fun i => i.productId)).length := by
    set ids := req.items.map (fun i => i.productId) with hids_def
    set found := productFindByIds w ids with hfound_def
    have hfsub : found.Sublist w.products := List.filter_sublist w.products
    have hfnodup : (found.map (fun p => p.id)).Nodup :=
      (hfsub.map (fun p => p.id)).nodup hids
    have hfmem : ∀ x ∈ found.map (fun p => p.id), x ∈ ids := by
      intro x hx
      obtain ⟨p, hp, hpx⟩ := List.mem_map.mp hx
      have := List.mem_filter.mp hp
      subst hpx
      simpa using this.2
    have h1 : found.length = (found.map (fun p => p.id)).length :=
      (List.length_map found _).symm
    have h2 : (found.map (fun p => p.id)).length ≤ ids.dedup.length := by
      have hcard : (found.map (fun p => p.id)).toFinset.card
          = (found.map (fun p => p.id)).length := List.toFinset_card_of_nodup hfnodup
      have hsub : (found.map (fun p => p.id)).toFinset ⊆ ids.toFinset := by
        intro x hx
        exact List.mem_toFinset.mpr (hfmem x (List.mem_toFinset.mp hx))
      calc (found.map (fun p => p.id)).length
          = (found.map (fun p => p.id)).toFinset.card := hcard.symm
        _ ≤ ids.toFinset.card := Finset.card_le_card hsub
        _ = ids.dedup.length := List.card_toFinset ids
    have h3 : ids.dedup.length < ids.length := by
      rcases Nat.lt_or_ge ids.dedup.length ids.length with h | h
      · exact h
      · exfalso
        have hle := ids.dedup_sublist.length_le
        have heq : ids.dedup.length = ids.length := Nat.le_antisymm hle h
        have : ids.dedup = ids := ids.dedup_sublist.eq_of_length heq
        exact hdup (this ▸ ids.nodup_dedup)
    omega
  have hmissing : missingIdsOf w (req.items.map (fun i => i.productId)) = [] := by
    unfold missingIdsOf
    rw [List.filter_eq_nil_iff]
    intro pid hpid
    obtain ⟨it, hit, hpidit⟩ := List.mem_map.mp hpid
    obtain ⟨p, hp, hpide⟩ := hall it hit
    have hpin : p ∈ productFindByIds w (req.items.map (fun i => i.productId)) := by
      rw [productFindByIds, List.mem_filter]
      refine ⟨hp, ?_⟩
      rw [List.elem_iff, hpide, hpidit]
      exact hpid
    have hmem : p.id ∈ (productFindByIds w (req.items.map (fun i => i.productId))).map
        (fun p => p.id) := List.mem_map_of_mem _ hpin
    rw [hpide, hpidit] at hmem
    simp [List.elem_iff, hmem]
  have hprep : validateAndPrepareItems w env req.items =
      Except.error "Products not found: " := by
    unfold validateAndPrepareItems
    rw [if_pos (Nat.ne_of_lt hlen)]
    rw [hmissing]
    simp [String.intercalate]
  refine ⟨hprep, fun hshape u huser => ?_⟩
  simp [execute, hshape, huser, hprep]

def reqD : CreateOrderRequest :=
  { userId := "u1",
    items := [{ productId := "p1", quantity := 1 }, { productId := "p1", quantity := 2 }],
    paymentMethod := PaymentMethod.PIX, paymentData := {}, customerData := none }

theorem duplicate_product_lines_rejected_as_not_found_witness :
    validateAndPrepareItems wW envW reqD.items = Except.error "Products not found: " :=
  (duplicate_product_lines_rejected_as_not_found wW envW reqD
    (by decide) (by decide) (by decide)).1

end Shop
